import Mathlib

/-
Shallow embedding of `src/interpreterv1.py`, the tree-walking evaluator for
the Brewin v1 teaching language.  Host I/O (the `output` and `get_input`
channels of the external base class) is made explicit in an interpreter
state: the output channel is the list of lines written so far, the input
channel the list of not-yet-consumed tokens.  A fatal interpreter error
(the base class's `error`, which raises) is modelled by a result variant
that records the error kind, its message, and the state at the moment of
the abort, so that "output written before the error" is observable.
-/

namespace Interp

/-- Error kinds surfaced to the caller.  `nameError` and `typeError` mirror
`ErrorType.NAME_ERROR` and `ErrorType.TYPE_ERROR`; `hostFailure` stands for
a crash inside the host input primitives (`int(...)` on a bad token, or
reading from an exhausted channel), which the source leaves unhandled. -/
inductive ErrKind where
  | nameError
  | typeError
  | hostFailure
deriving DecidableEq, Repr

/-- An abort notification: the kind and the descriptive message passed to
the base class's `error`. -/
structure Err where
  kind : ErrKind
  msg : String
deriving DecidableEq, Repr

/-- Runtime values: the interpreter stores Python ints, Python strings, or
`None` (the null sentinel used for declared-but-unassigned variables and as
the result of `print` and of unrecognised expression kinds). -/
inductive Value where
  | vint (n : Int)
  | vstr (s : String)
  | vnull
deriving DecidableEq, Repr

/-- Textual form of a value, as Python's `str` produces it inside
`call_func`: integers as decimal text, strings as-is, and the null
sentinel as the host text "None". -/
def valueToStr : Value → String
  | .vint n => toString n
  | .vstr s => s
  | .vnull => "None"

/-- Whether a value is an integer, as tested by `isinstance(v, int)` in the
arithmetic branch of `eval`. -/
def Value.isInt : Value → Bool
  | .vint _ => true
  | _ => false

/-- Expression nodes dispatched on by `eval`.  `binop` covers the
`elem_type in ("+", "-")` branch; `unknownNode` stands for any node whose
kind is none of the dispatched ones, which falls through to the final
`return None`. -/
inductive BinOp where
  | add
  | sub
deriving DecidableEq, Repr

inductive Expr where
  | intLit (n : Int)
  | strLit (s : String)
  | varRef (name : String)
  | fcall (fname : String) (args : List Expr)
  | binop (op : BinOp) (op1 op2 : Expr)
  | unknownNode
deriving Repr

/-- Statement nodes dispatched on by `run_stmt`: variable definition,
assignment, and the default branch which evaluates the node as an
expression and discards the result. -/
inductive Stmt where
  | varDecl (name : String)
  | assign (var : String) (expression : Expr)
  | exprStmt (e : Expr)
deriving Repr

/-- A function definition of the parsed program: a name and the ordered
statement list (Brewin v1 functions have no parameters). -/
structure Func where
  name : String
  statements : List Stmt
deriving Repr

/-- A parsed program: its ordered list of function definitions. -/
structure Program where
  functions : List Func
deriving Repr

/-- Interpreter state: the variable table `self.vars` (an insertion-ordered
dictionary, kept as an association list with unique keys), the two host
channels, and the observational counters/flags of the source. -/
structure InterpState where
  vars : List (String × Value)
  output : List String
  input : List String
  statementCount : Nat
  variableCount : Nat
  isRunning : Bool
deriving DecidableEq, Repr

/-- Result of evaluating an expression or executing a statement: either a
normal result together with the updated state, or an abort carrying the
error and the state at the moment `error` was raised. -/
inductive EvalResult (α : Type) where
  | ok (a : α) (s : InterpState)
  | err (e : Err) (s : InterpState)
deriving DecidableEq, Repr

/-- State carried by a result, whether normal or aborted. -/
def EvalResult.state {α : Type} : EvalResult α → InterpState
  | .ok _ s => s
  | .err _ s => s

/-- Dictionary lookup in the variable table (`name in self.vars` /
`self.vars[name]`). -/
def lookupVar : List (String × Value) → String → Option Value
  | [], _ => none
  | (k, v) :: rest, name => if k = name then some v else lookupVar rest name

/-- Dictionary update of an existing key (`self.vars[name] = val` when
`name` is already present): the binding keeps its position. -/
def updateVar : List (String × Value) → String → Value → List (String × Value)
  | [], _, _ => []
  | (k, v) :: rest, name, val =>
    if k = name then (k, val) :: rest else (k, v) :: updateVar rest name val

/-- Value of a decimal digit character, if it is one. -/
def digitVal (c : Char) : Option Nat :=
  if 48 ≤ c.toNat ∧ c.toNat ≤ 57 then some (c.toNat - 48) else none

/-- Accumulator-style decimal read of a character list; `none` on the first
non-digit. -/
def digitsToNat : Nat → List Char → Option Nat
  | acc, [] => some acc
  | acc, c :: cs =>
    match digitVal c with
    | none => none
    | some d => digitsToNat (acc * 10 + d) cs

/-- Modelled from the spec: the host `int(...)` conversion applied by
`call_func` to the token it reads — an optional sign followed by decimal
digits yields the corresponding integer; anything else fails to parse. -/
def parseIntTok (tok : String) : Option Int :=
  match tok.toList with
  | [] => none
  | '-' :: cs =>
    match cs with
    | [] => none
    | _ => (digitsToNat 0 cs).map (fun n => -(n : Int))
  | '+' :: cs =>
    match cs with
    | [] => none
    | _ => (digitsToNat 0 cs).map (fun n => (n : Int))
  | cs => (digitsToNat 0 cs).map (fun n => (n : Int))

/-- Modelled from the spec: the host input channel (`InterpreterBase.get_input`,
not under src/) yields whitespace/line-delimited tokens; `call_func` applies
the host's `int(...)` to the token it reads.  A missing token or a token that
does not parse as an integer is the unhandled host crash, surfaced here as a
`hostFailure` abort. -/
def getInput (st : InterpState) : EvalResult Value :=
  match st.input with
  | [] => .err ⟨.hostFailure, "get_input: input channel exhausted"⟩ st
  | tok :: rest =>
    match parseIntTok tok with
    | some n => .ok (.vint n) { st with input := rest }
    | none => .err ⟨.hostFailure, "int: invalid integer token"⟩ st

/-- Continuation of the `print` branch of `call_func` once its arguments
have been evaluated: write the separator-free concatenation of their
textual forms as one line, return the null sentinel.  An abort during
argument evaluation propagates. -/
def printCall : EvalResult (List Value) → EvalResult Value
  | .err e st1 => .err e st1
  | .ok vs st1 =>
    .ok .vnull { st1 with output := st1.output ++ [String.join (vs.map valueToStr)] }

/-- Continuation of the one-argument `inputi` branch of `call_func` once
its argument has been evaluated: write the argument's textual form as the
prompt, then read. An abort during argument evaluation propagates. -/
def inputiPrompted : EvalResult Value → EvalResult Value
  | .err e st1 => .err e st1
  | .ok v st1 => getInput { st1 with output := st1.output ++ [valueToStr v] }

/-- Outcome of the arithmetic branch of `eval` on the two operand values:
a TypeError abort unless both are integers, otherwise the sum or the
difference (left minus right).  The source's residual `is not None` guard
is subsumed: a value passing `isinstance(v, int)` is never `None`. -/
def arith (op : BinOp) (v1 v2 : Value) (st2 : InterpState) : EvalResult Value :=
  match v1, v2 with
  | .vint a, .vint b =>
    .ok (.vint (match op with | .add => a + b | .sub => a - b)) st2
  | _, _ => .err ⟨.typeError, "Incompatible types for arithmetic operation"⟩ st2

mutual

/-- Translation of `Interpreter.eval`.  The `fcall` branch inlines the body
of `Interpreter.call_func` (the source's `eval` immediately delegates to it);
see `callFunc` below for the named counterpart. -/
def eval : Expr → InterpState → EvalResult Value
  | .intLit n, st => .ok (.vint n) st
  | .strLit s, st => .ok (.vstr s) st
  | .varRef name, st =>
    match lookupVar st.vars name with
    | none => .err ⟨.nameError, "Variable " ++ name ++ " has not been defined"⟩ st
    | some v => .ok v st
  | .fcall fname args, st =>
    if fname = "print" then
      printCall (evalArgs args st)
    else if fname = "inputi" then
      if args.length > 1 then
        .err ⟨.nameError, "No inputi() function found that takes > 1 parameter"⟩ st
      else
        match args with
        | [a] => inputiPrompted (eval a st)
        | _ => getInput st
    else
      .err ⟨.nameError, "Function " ++ fname ++ " has not been defined"⟩ st
  | .binop op o1 o2, st =>
    match eval o1 st with
    | .err e st1 => .err e st1
    | .ok v1 st1 =>
      match eval o2 st1 with
      | .err e st2 => .err e st2
      | .ok v2 st2 => arith op v1 v2 st2
  | .unknownNode, st => .ok .vnull st

/-- Left-to-right evaluation of an argument list, as performed by the
generator expression in the `print` branch and shared here with `inputi`. -/
def evalArgs : List Expr → InterpState → EvalResult (List Value)
  | [], st => .ok [] st
  | a :: rest, st =>
    match eval a st with
    | .err e st1 => .err e st1
    | .ok v st1 =>
      match evalArgs rest st1 with
      | .err e st2 => .err e st2
      | .ok vs st2 => .ok (v :: vs) st2

end

/-- Named counterpart of `Interpreter.call_func`: dispatching a call with
the given callee name and unevaluated argument list.  Definitionally the
`fcall` branch of `eval`. -/
def callFunc (fname : String) (args : List Expr) (st : InterpState) : EvalResult Value :=
  eval (.fcall fname args) st

/-- Translation of `Interpreter.def_var`. -/
def defVar (name : String) (st : InterpState) : EvalResult Unit :=
  match lookupVar st.vars name with
  | some _ => .err ⟨.nameError, "Variable " ++ name ++ " defined more than once"⟩ st
  | none =>
    .ok () { st with
      vars := st.vars ++ [(name, .vnull)]
      variableCount := st.variableCount + 1 }

/-- Translation of `Interpreter.assign`: the presence check precedes the
evaluation of the right-hand expression. -/
def assignVar (var : String) (expression : Expr) (st : InterpState) : EvalResult Unit :=
  match lookupVar st.vars var with
  | none => .err ⟨.nameError, "Variable " ++ var ++ " has not been defined"⟩ st
  | some _ =>
    match eval expression st with
    | .err e st1 => .err e st1
    | .ok v st1 => .ok () { st1 with vars := updateVar st1.vars var v }

/-- Translation of `Interpreter.run_stmt`: the statement counter is bumped
first, then the statement kind is dispatched. -/
def execStmt (s : Stmt) (st0 : InterpState) : EvalResult Unit :=
  let st := { st0 with statementCount := st0.statementCount + 1 }
  match s with
  | .varDecl name => defVar name st
  | .assign var expression => assignVar var expression st
  | .exprStmt e =>
    match eval e st with
    | .err er st1 => .err er st1
    | .ok _ st1 => .ok () st1

/-- Sequential execution of a statement list, as the loop in `run` does:
the first abort stops the loop. -/
def execStmts : List Stmt → InterpState → EvalResult Unit
  | [], st => .ok () st
  | s :: rest, st =>
    match execStmt s st with
    | .err e st1 => .err e st1
    | .ok _ st1 => execStmts rest st1

/-- Translation of `Interpreter.find_main`: the first function definition
whose name is `main`, if any. -/
def findMain (prog : Program) : Option Func :=
  prog.functions.find? (fun f => f.name == "main")

/-- Translation of `Interpreter.run` on an already-parsed program: locate
`main`, abort with a NameError if it is missing, otherwise execute its
statements in order with the running flag set, clearing the flag on normal
completion. -/
def run (prog : Program) (st : InterpState) : EvalResult Unit :=
  match findMain prog with
  | none => .err ⟨.nameError, "No main() function was found"⟩ st
  | some f =>
    match execStmts f.statements { st with isRunning := true } with
    | .ok _ st1 => .ok () { st1 with isRunning := false }
    | .err e st1 => .err e st1

/-- State of a freshly constructed interpreter with the given input channel:
empty variable table, nothing written, counters at zero. -/
def initState (inp : List String) : InterpState :=
  { vars := [], output := [], input := inp,
    statementCount := 0, variableCount := 0, isRunning := false }

/-- The variable a statement writes (declares or assigns), if any. -/
def stmtTarget : Stmt → Option String
  | .varDecl name => some name
  | .assign var _ => some var
  | .exprStmt _ => none

/-- A list of output lines extends another: the old lines are an initial
segment of the new ones. -/
def outputExtends (old new : List String) : Prop :=
  ∃ t, new = old ++ t

/-- One state is reachable from another by expression-level work only: the
variable table is unchanged and the output channel has only been appended
to. -/
def stateFrame (s s' : InterpState) : Prop :=
  s'.vars = s.vars ∧ outputExtends s.output s'.output

/-- Frame property of an expression-level step relative to its starting
state, whether the step succeeded or aborted. -/
def frameOK {α : Type} (r : EvalResult α) (s : InterpState) : Prop :=
  stateFrame s r.state

theorem outputExtends_refl (l : List String) : outputExtends l l :=
  ⟨[], by simp⟩

theorem outputExtends_trans {a b c : List String}
    (h1 : outputExtends a b) (h2 : outputExtends b c) : outputExtends a c := by
  obtain ⟨t1, h1⟩ := h1
  obtain ⟨t2, h2⟩ := h2
  exact ⟨t1 ++ t2, by rw [h2, h1, List.append_assoc]⟩

theorem stateFrame_refl (s : InterpState) : stateFrame s s :=
  ⟨rfl, outputExtends_refl _⟩

theorem stateFrame_trans {a b c : InterpState}
    (h1 : stateFrame a b) (h2 : stateFrame b c) : stateFrame a c :=
  ⟨h2.1.trans h1.1, outputExtends_trans h1.2 h2.2⟩

theorem stateFrame_append_output (s : InterpState) (lines : List String) :
    stateFrame s { s with output := s.output ++ lines } :=
  ⟨rfl, ⟨lines, rfl⟩⟩

theorem frameOK_of_state_eq {α : Type} {r : EvalResult α} {s : InterpState}
    (h : r.state = s) : frameOK r s := by
  unfold frameOK
  rw [h]
  exact stateFrame_refl s

theorem getInput_frame (st : InterpState) : frameOK (getInput st) st := by
  unfold getInput
  split
  · exact frameOK_of_state_eq rfl
  · split
    · exact ⟨rfl, ⟨[], by simp [EvalResult.state]⟩⟩
    · exact frameOK_of_state_eq rfl

theorem printCall_frame {s : InterpState} {r : EvalResult (List Value)}
    (h : frameOK r s) : frameOK (printCall r) s := by
  cases r with
  | err e st1 => exact h
  | ok vs st1 => exact stateFrame_trans h (stateFrame_append_output st1 _)

theorem inputiPrompted_frame {s : InterpState} {r : EvalResult Value}
    (h : frameOK r s) : frameOK (inputiPrompted r) s := by
  cases r with
  | err e st1 => exact h
  | ok v st1 =>
    refine stateFrame_trans h (stateFrame_trans (stateFrame_append_output st1 [valueToStr v]) ?_)
    exact getInput_frame { st1 with output := st1.output ++ [valueToStr v] }

theorem arith_state (op : BinOp) (v1 v2 : Value) (st2 : InterpState) :
    (arith op v1 v2 st2).state = st2 := by
  cases v1 <;> cases v2 <;> rfl

mutual

theorem eval_frame : ∀ (e : Expr) (s : InterpState), frameOK (eval e s) s
  | .intLit _, _ => frameOK_of_state_eq rfl
  | .strLit _, _ => frameOK_of_state_eq rfl
  | .varRef name, s => by
    rw [eval.eq_def]
    dsimp only
    split
    · exact frameOK_of_state_eq rfl
    · exact frameOK_of_state_eq rfl
  | .fcall fname args, s => by
    rw [eval.eq_def]
    dsimp only
    split
    · exact printCall_frame (evalArgs_frame args s)
    · split
      · split
        · exact frameOK_of_state_eq rfl
        · split
          · next a heq => exact inputiPrompted_frame (eval_frame a s)
          · exact getInput_frame s
      · exact frameOK_of_state_eq rfl
  | .binop op o1 o2, s => by
    rw [eval.eq_def]
    dsimp only
    have h1 := eval_frame o1 s
    split
    · next heq => rw [heq] at h1; exact h1
    · next v1 st1 heq =>
      rw [heq] at h1
      have h2 := eval_frame o2 st1
      split
      · next heq2 => rw [heq2] at h2; exact stateFrame_trans h1 h2
      · next v2 st2 heq2 =>
        rw [heq2] at h2
        have h12 : stateFrame s st2 := stateFrame_trans h1 h2
        unfold frameOK
        rw [arith_state]
        exact h12
  | .unknownNode, _ => frameOK_of_state_eq rfl

theorem evalArgs_frame : ∀ (l : List Expr) (s : InterpState), frameOK (evalArgs l s) s
  | [], _ => frameOK_of_state_eq rfl
  | a :: rest, s => by
    rw [evalArgs.eq_def]
    dsimp only
    have h1 := eval_frame a s
    split
    · next heq => rw [heq] at h1; exact h1
    · next v st1 heq =>
      rw [heq] at h1
      have h2 := evalArgs_frame rest st1
      split
      · next heq2 => rw [heq2] at h2; exact stateFrame_trans h1 h2
      · next vs st2 heq2 => rw [heq2] at h2; exact stateFrame_trans h1 h2

end

theorem lookupVar_append (l1 l2 : List (String × Value)) (v : String) :
    lookupVar (l1 ++ l2) v = (lookupVar l1 v).or (lookupVar l2 v) := by
  induction l1 with
  | nil => simp [lookupVar]
  | cons p rest ih =>
    obtain ⟨k, w⟩ := p
    by_cases h : k = v
    · simp [lookupVar, h]
    · simp [lookupVar, h, ih]

theorem lookupVar_update_other {v name : String} (l : List (String × Value))
    (w : Value) (h : v ≠ name) : lookupVar (updateVar l name w) v = lookupVar l v := by
  induction l with
  | nil => rfl
  | cons p rest ih =>
    obtain ⟨k, u⟩ := p
    by_cases hk : k = name
    · subst hk
      have hkv : ¬(k = v) := fun hh => h hh.symm
      simp [updateVar, lookupVar, hkv]
    · by_cases hkv : k = v
      · simp [updateVar, lookupVar, hk, hkv, h]
      · simp [updateVar, lookupVar, hk, hkv, ih]

theorem lookupVar_update_self (l : List (String × Value)) (name : String) (w : Value) :
    lookupVar (updateVar l name w) name = (lookupVar l name).map (fun _ => w) := by
  induction l with
  | nil => rfl
  | cons p rest ih =>
    obtain ⟨k, u⟩ := p
    by_cases hk : k = name
    · simp [updateVar, lookupVar, hk]
    · simp [updateVar, lookupVar, hk, ih]

theorem execStmt_output (s : Stmt) (st : InterpState) :
    outputExtends st.output ((execStmt s st).state).output := by
  unfold execStmt
  cases s with
  | varDecl name =>
    dsimp only
    unfold defVar
    split
    · exact outputExtends_refl _
    · exact outputExtends_refl _
  | assign var expression =>
    dsimp only
    unfold assignVar
    split
    · exact outputExtends_refl _
    · have h := eval_frame expression { st with statementCount := st.statementCount + 1 }
      split
      · next heq => rw [heq] at h; exact h.2
      · next v st1 heq => rw [heq] at h; exact h.2
  | exprStmt e =>
    dsimp only
    have h := eval_frame e { st with statementCount := st.statementCount + 1 }
    split
    · next heq => rw [heq] at h; exact h.2
    · next v st1 heq => rw [heq] at h; exact h.2

theorem execStmts_append (l1 l2 : List Stmt) (st : InterpState) :
    execStmts (l1 ++ l2) st =
      match execStmts l1 st with
      | .err e st1 => .err e st1
      | .ok _ st1 => execStmts l2 st1 := by
  induction l1 generalizing st with
  | nil => rfl
  | cons s rest ih =>
    show (match execStmt s st with
      | EvalResult.err e st1 => EvalResult.err e st1
      | EvalResult.ok _ st1 => execStmts (rest ++ l2) st1) =
      match (match execStmt s st with
        | EvalResult.err e st1 => EvalResult.err e st1
        | EvalResult.ok _ st1 => execStmts rest st1) with
      | EvalResult.err e st1 => EvalResult.err e st1
      | EvalResult.ok _ st1 => execStmts l2 st1
    cases execStmt s st with
    | err e st1 => rfl
    | ok a st1 => exact ih st1

theorem eval_varRef_def (name : String) (st : InterpState) :
    eval (.varRef name) st =
      match lookupVar st.vars name with
      | none => .err ⟨.nameError, "Variable " ++ name ++ " has not been defined"⟩ st
      | some v => .ok v st := rfl

theorem callFunc_print_def (args : List Expr) (st : InterpState) :
    callFunc "print" args st = printCall (evalArgs args st) := by
  unfold callFunc
  rw [eval.eq_def]
  dsimp only
  rw [if_pos rfl]

theorem callFunc_inputi_zero_def (st : InterpState) :
    callFunc "inputi" [] st = getInput st := by
  unfold callFunc
  rw [eval.eq_def]
  dsimp only
  rw [if_neg (by decide), if_pos rfl, if_neg (show ¬(([] : List Expr).length > 1) by simp)]

theorem callFunc_inputi_one_def (a : Expr) (st : InterpState) :
    callFunc "inputi" [a] st = inputiPrompted (eval a st) := by
  unfold callFunc
  rw [eval.eq_def]
  dsimp only
  rw [if_neg (by decide), if_pos rfl, if_neg (show ¬([a].length > 1) by simp)]

theorem callFunc_inputi_arity (args : List Expr) (st : InterpState)
    (h : args.length > 1) :
    callFunc "inputi" args st =
      .err ⟨.nameError, "No inputi() function found that takes > 1 parameter"⟩ st := by
  unfold callFunc
  rw [eval.eq_def]
  dsimp only
  rw [if_neg (by decide), if_pos rfl, if_pos h]

theorem callFunc_other (fname : String) (args : List Expr) (st : InterpState)
    (h1 : fname ≠ "print") (h2 : fname ≠ "inputi") :
    callFunc fname args st =
      .err ⟨.nameError, "Function " ++ fname ++ " has not been defined"⟩ st := by
  unfold callFunc
  rw [eval.eq_def]
  dsimp only
  rw [if_neg h1, if_neg h2]

theorem eval_binop_def (op : BinOp) (o1 o2 : Expr) (st : InterpState) :
    eval (.binop op o1 o2) st =
      match eval o1 st with
      | .err e st1 => .err e st1
      | .ok v1 st1 =>
        match eval o2 st1 with
        | .err e st2 => .err e st2
        | .ok v2 st2 => arith op v1 v2 st2 := rfl

theorem evalArgs_cons_def (a : Expr) (rest : List Expr) (st : InterpState) :
    evalArgs (a :: rest) st =
      match eval a st with
      | .err e st1 => .err e st1
      | .ok v st1 =>
        match evalArgs rest st1 with
        | .err e st2 => .err e st2
        | .ok vs st2 => .ok (v :: vs) st2 := rfl

/-- Claim C1: the Runner locates the (first) function named `main` among the
program's function definitions; with no such function the run aborts with
NameError "No main() function was found" and the error carries the
untouched starting state (nothing has executed); with `main` found, the
run is exactly the sequential execution of its statements in the one
shared environment threaded through `execStmts`, with the running flag
set for the duration. -/
theorem C1_runner_main (prog : Program) (st : InterpState) :
    (findMain prog = none →
      run prog st = .err ⟨.nameError, "No main() function was found"⟩ st) ∧
    (∀ f, findMain prog = some f →
      f.name = "main" ∧
      (∀ st1, execStmts f.statements { st with isRunning := true } = .ok () st1 →
        run prog st = .ok () { st1 with isRunning := false }) ∧
      (∀ e st1, execStmts f.statements { st with isRunning := true } = .err e st1 →
        run prog st = .err e st1)) := by
  constructor
  · intro h
    unfold run
    rw [h]
  · intro f hf
    refine ⟨?_, ?_, ?_⟩
    · have hp := List.find?_some (by unfold findMain at hf; exact hf)
      exact eq_of_beq hp
    · intro st1 h1
      unfold run
      rw [hf]
      dsimp only
      rw [h1]
    · intro e st1 h1
      unfold run
      rw [hf]
      dsimp only
      rw [h1]

/-- Witness for claim C1: a program without `main` aborts with the stated
NameError and state untouched; a program with `main` executes its
statement list. -/
theorem C1_runner_main_witness :
    run ⟨[⟨"helper", [.varDecl "x"]⟩]⟩ (initState []) =
      .err ⟨.nameError, "No main() function was found"⟩ (initState []) ∧
    run ⟨[⟨"main", [.varDecl "x"]⟩]⟩ (initState []) =
      .ok () { vars := [("x", .vnull)], output := [], input := [],
               statementCount := 1, variableCount := 1, isRunning := false } := by
  constructor
  · exact (C1_runner_main ⟨[⟨"helper", [.varDecl "x"]⟩]⟩ (initState [])).1 rfl
  · exact (((C1_runner_main ⟨[⟨"main", [.varDecl "x"]⟩]⟩ (initState [])).2
      ⟨"main", [.varDecl "x"]⟩ rfl).2.1
      { vars := [("x", .vnull)], output := [], input := [],
        statementCount := 1, variableCount := 1, isRunning := true } rfl)

/-- Claim C2: for a binary `+`/`-` node the left operand is evaluated first
(an abort there propagates with the right operand never reached), then
the right operand (its abort propagates); with both operand values
integers, `+` yields the sum and `-` yields left minus right; with either
operand value not an integer (a string or the null sentinel) the node
aborts with the TypeError "Incompatible types for arithmetic operation". -/
theorem C2_binop_eval (o1 o2 : Expr) (st st1 st2 : InterpState) :
    (∀ e st', eval o1 st = .err e st' →
      eval (.binop .add o1 o2) st = .err e st' ∧
      eval (.binop .sub o1 o2) st = .err e st') ∧
    (∀ v1, eval o1 st = .ok v1 st1 →
      (∀ e st', eval o2 st1 = .err e st' →
        eval (.binop .add o1 o2) st = .err e st' ∧
        eval (.binop .sub o1 o2) st = .err e st') ∧
      (∀ v2, eval o2 st1 = .ok v2 st2 →
        (∀ a b, v1 = .vint a → v2 = .vint b →
          eval (.binop .add o1 o2) st = .ok (.vint (a + b)) st2 ∧
          eval (.binop .sub o1 o2) st = .ok (.vint (a - b)) st2) ∧
        (v1.isInt = false ∨ v2.isInt = false →
          eval (.binop .add o1 o2) st =
            .err ⟨.typeError, "Incompatible types for arithmetic operation"⟩ st2 ∧
          eval (.binop .sub o1 o2) st =
            .err ⟨.typeError, "Incompatible types for arithmetic operation"⟩ st2))) := by
  refine ⟨?_, ?_⟩
  · intro e st' h
    constructor <;> (rw [eval_binop_def, h])
  · intro v1 h1
    refine ⟨?_, ?_⟩
    · intro e st' h2
      constructor <;> (rw [eval_binop_def, h1]; dsimp only; rw [h2])
    · intro v2 h2
      refine ⟨?_, ?_⟩
      · rintro a b rfl rfl
        constructor <;> (rw [eval_binop_def, h1]; dsimp only; rw [h2]; rfl)
      · intro hni
        cases v1 <;> cases v2 <;>
          first
          | (constructor <;> (rw [eval_binop_def, h1]; dsimp only; rw [h2]; rfl))
          | (exfalso; simp [Value.isInt] at hni)

/-- Witness for claim C2: concrete sums, differences, and a type error. -/
theorem C2_binop_eval_witness :
    eval (.binop .add (.intLit 2) (.intLit 3)) (initState []) =
      .ok (.vint 5) (initState []) ∧
    eval (.binop .sub (.intLit 2) (.intLit 3)) (initState []) =
      .ok (.vint (-1)) (initState []) ∧
    eval (.binop .add (.strLit "a") (.intLit 3)) (initState []) =
      .err ⟨.typeError, "Incompatible types for arithmetic operation"⟩ (initState []) := by
  refine ⟨?_, ?_, ?_⟩
  · exact ((((C2_binop_eval (.intLit 2) (.intLit 3) (initState []) (initState [])
      (initState [])).2 (.vint 2) rfl).2 (.vint 3) rfl).1 2 3 rfl rfl).1
  · exact ((((C2_binop_eval (.intLit 2) (.intLit 3) (initState []) (initState [])
      (initState [])).2 (.vint 2) rfl).2 (.vint 3) rfl).1 2 3 rfl rfl).2
  · exact ((((C2_binop_eval (.strLit "a") (.intLit 3) (initState []) (initState [])
      (initState [])).2 (.vstr "a") rfl).2 (.vint 3) rfl).2 (Or.inl rfl)).1

/-- Claim C3: reading an undeclared variable aborts with NameError; assigning an
undeclared variable aborts with NameError before the right-hand side is
touched (the error state shows only the statement-counter bump); declaring
an already-present variable aborts with NameError; and declaring then
reading without an assignment yields the null sentinel, not an error. -/
theorem C3_variable_rules (v : String) (st : InterpState) :
    (lookupVar st.vars v = none →
      eval (.varRef v) st =
        .err ⟨.nameError, "Variable " ++ v ++ " has not been defined"⟩ st) ∧
    (lookupVar st.vars v = none → ∀ e,
      execStmt (.assign v e) st =
        .err ⟨.nameError, "Variable " ++ v ++ " has not been defined"⟩
          { st with statementCount := st.statementCount + 1 }) ∧
    (∀ w, lookupVar st.vars v = some w →
      execStmt (.varDecl v) st =
        .err ⟨.nameError, "Variable " ++ v ++ " defined more than once"⟩
          { st with statementCount := st.statementCount + 1 }) ∧
    (lookupVar st.vars v = none → ∀ st', execStmt (.varDecl v) st = .ok () st' →
      eval (.varRef v) st' = .ok .vnull st') := by
  refine ⟨?_, ?_, ?_, ?_⟩
  · intro h
    rw [eval_varRef_def, h]
  · intro h e
    unfold execStmt assignVar
    dsimp only
    rw [h]
  · intro w h
    unfold execStmt defVar
    dsimp only
    rw [h]
  · intro h st' h'
    unfold execStmt defVar at h'
    dsimp only at h'
    rw [h] at h'
    injection h' with h1 h2
    subst h2
    rw [eval_varRef_def]
    dsimp only
    rw [lookupVar_append, h]
    simp [lookupVar]

/-- Witness for claim C3 at variable "x": each of the four behaviours at a
concrete state. -/
theorem C3_variable_rules_witness :
    eval (.varRef "x") (initState []) =
      .err ⟨.nameError, "Variable x has not been defined"⟩ (initState []) ∧
    execStmt (.assign "x" (.intLit 1)) (initState []) =
      .err ⟨.nameError, "Variable x has not been defined"⟩
        { initState [] with statementCount := 1 } ∧
    execStmt (.varDecl "x")
        { vars := [("x", .vnull)], output := [], input := [],
          statementCount := 1, variableCount := 1, isRunning := true } =
      .err ⟨.nameError, "Variable x defined more than once"⟩
        { vars := [("x", .vnull)], output := [], input := [],
          statementCount := 2, variableCount := 1, isRunning := true } ∧
    eval (.varRef "x")
        { vars := [("x", .vnull)], output := [], input := [],
          statementCount := 1, variableCount := 1, isRunning := false } =
      .ok .vnull
        { vars := [("x", .vnull)], output := [], input := [],
          statementCount := 1, variableCount := 1, isRunning := false } := by
  refine ⟨?_, ?_, ?_, ?_⟩
  · exact (C3_variable_rules "x" (initState [])).1 rfl
  · exact (C3_variable_rules "x" (initState [])).2.1 rfl (.intLit 1)
  · exact (C3_variable_rules "x"
      { vars := [("x", .vnull)], output := [], input := [],
        statementCount := 1, variableCount := 1, isRunning := true }).2.2.1 .vnull rfl
  · exact (C3_variable_rules "x" (initState [])).2.2.2 rfl
      { vars := [("x", .vnull)], output := [], input := [],
        statementCount := 1, variableCount := 1, isRunning := false } rfl

/-- Claim C9: an expression node whose kind is none of the dispatched ones
(integer literal, string literal, variable reference, call, `+`, `-`)
makes `eval` fall through to its default case: no error is raised and the
null sentinel is returned, with the state untouched. -/
theorem C9_unknown_kind_yields_null (st : InterpState) :
    eval .unknownNode st = .ok .vnull st := rfl

/-- Claim C10: the null sentinel is an acceptable `print` argument: its textual
form is the host text "None", and a declared-but-never-assigned variable
passed to `print` produces exactly that text in the printed line, with no
error. -/
theorem C10_print_null_sentinel :
    valueToStr .vnull = "None" ∧
    run ⟨[⟨"main", [.varDecl "x", .exprStmt (.fcall "print" [.varRef "x"])]⟩]⟩
        (initState []) =
      .ok () { vars := [("x", .vnull)], output := ["None"], input := [],
               statementCount := 2, variableCount := 1, isRunning := false } :=
  ⟨rfl, by decide⟩

/-- Claim C4: a call to `print` evaluates its arguments left-to-right (the
threaded `evalArgs`; an abort during any argument propagates), converts
each value to its textual form, concatenates the forms with no separator,
writes exactly one line equal to that concatenation to the output channel
(an empty line for zero arguments), and returns the null sentinel. -/
theorem C4_print_line (args : List Expr) (st st1 : InterpState) :
    (∀ vs, evalArgs args st = .ok vs st1 →
      callFunc "print" args st =
        .ok .vnull { st1 with output := st1.output ++ [String.join (vs.map valueToStr)] }) ∧
    (∀ e st', evalArgs args st = .err e st' → callFunc "print" args st = .err e st') ∧
    callFunc "print" [] st = .ok .vnull { st with output := st.output ++ [""] } := by
  refine ⟨?_, ?_, ?_⟩
  · intro vs h
    rw [callFunc_print_def, h]
    rfl
  · intro e st' h
    rw [callFunc_print_def, h]
    rfl
  · rw [callFunc_print_def]
    rfl

/-- Witness for claim C4: a mixed string/integer argument list prints one
concatenated line, and an argumentless `print` writes one empty line. -/
theorem C4_print_line_witness :
    callFunc "print" [.strLit "x", .intLit 1, .strLit "y", .intLit 2] (initState []) =
      .ok .vnull { vars := [], output := ["x1y2"], input := [],
                   statementCount := 0, variableCount := 0, isRunning := false } ∧
    callFunc "print" [] (initState []) =
      .ok .vnull { vars := [], output := [""], input := [],
                   statementCount := 0, variableCount := 0, isRunning := false } := by
  constructor
  · exact (C4_print_line [.strLit "x", .intLit 1, .strLit "y", .intLit 2]
      (initState []) (initState [])).1 [.vstr "x", .vint 1, .vstr "y", .vint 2] rfl
  · exact (C4_print_line [] (initState []) (initState [])).2.2

/-- Claim C5: the first error raised during statement execution aborts the whole
run: with `main` found and the statements before some statement `s`
succeeding, an abort inside `s` makes the entire run abort with that very
error (kind and message), the statements after `s` never execute, and the
output written before the abort is preserved (the abort state's output
extends it). -/
theorem C5_first_error_aborts (prog : Program) (f : Func) (l1 l2 : List Stmt)
    (s : Stmt) (e : Err) (st st1 st2 : InterpState) :
    findMain prog = some f →
    f.statements = l1 ++ s :: l2 →
    execStmts l1 { st with isRunning := true } = .ok () st1 →
    execStmt s st1 = .err e st2 →
    run prog st = .err e st2 ∧ outputExtends st1.output st2.output := by
  intro hf hstmts h1 h2
  have hrun : execStmts f.statements { st with isRunning := true } = .err e st2 := by
    rw [hstmts, execStmts_append, h1]
    dsimp only
    show execStmts (s :: l2) st1 = .err e st2
    unfold execStmts
    rw [h2]
  constructor
  · unfold run
    rw [hf]
    dsimp only
    rw [hrun]
  · have h3 := execStmt_output s st1
    rw [h2] at h3
    exact h3

/-- Witness for claim C5: `print("a")` succeeds, the following assignment to the
undeclared `x` aborts the run with its NameError, the line "a" survives in
the abort state, and the final `print("b")` never runs. -/
theorem C5_first_error_aborts_witness :
    run ⟨[⟨"main", [.exprStmt (.fcall "print" [.strLit "a"]),
                    .assign "x" (.intLit 1),
                    .exprStmt (.fcall "print" [.strLit "b"])]⟩]⟩ (initState []) =
      .err ⟨.nameError, "Variable x has not been defined"⟩
        { vars := [], output := ["a"], input := [], statementCount := 2,
          variableCount := 0, isRunning := true } ∧
    outputExtends ["a"] ["a"] := by
  exact C5_first_error_aborts
    ⟨[⟨"main", [.exprStmt (.fcall "print" [.strLit "a"]),
               .assign "x" (.intLit 1),
               .exprStmt (.fcall "print" [.strLit "b"])]⟩]⟩
    ⟨"main", [.exprStmt (.fcall "print" [.strLit "a"]),
              .assign "x" (.intLit 1),
              .exprStmt (.fcall "print" [.strLit "b"])]⟩
    [.exprStmt (.fcall "print" [.strLit "a"])]
    [.exprStmt (.fcall "print" [.strLit "b"])]
    (.assign "x" (.intLit 1))
    ⟨.nameError, "Variable x has not been defined"⟩
    (initState [])
    { vars := [], output := ["a"], input := [], statementCount := 1,
      variableCount := 0, isRunning := true }
    { vars := [], output := ["a"], input := [], statementCount := 2,
      variableCount := 0, isRunning := true }
    rfl rfl rfl rfl

/-- Claim C6: a call to `inputi` with one argument evaluates it, writes its
textual form to the output channel as the prompt, then reads exactly one
token from the input channel and returns the integer it parses to; with no
argument it reads and returns the parsed token directly. -/
theorem C6_inputi_reads_token (a : Expr) (st : InterpState) :
    (∀ v st1 tok rest n, eval a st = .ok v st1 →
      st1.input = tok :: rest → parseIntTok tok = some n →
      callFunc "inputi" [a] st =
        .ok (.vint n) { st1 with output := st1.output ++ [valueToStr v], input := rest }) ∧
    (∀ tok rest n, st.input = tok :: rest → parseIntTok tok = some n →
      callFunc "inputi" [] st = .ok (.vint n) { st with input := rest }) := by
  constructor
  · intro v st1 tok rest n h hin hparse
    rw [callFunc_inputi_one_def, h]
    show getInput { st1 with output := st1.output ++ [valueToStr v] } = _
    unfold getInput
    dsimp only
    rw [hin]
    dsimp only
    rw [hparse]
  · intro tok rest n hin hparse
    rw [callFunc_inputi_zero_def]
    unfold getInput
    rw [hin]
    dsimp only
    rw [hparse]

/-- Witness for claim C6: with tokens "42", "7" pending, a prompted `inputi`
writes the prompt and returns 42 consuming exactly one token; an
unprompted `inputi` returns the parsed head token. -/
theorem C6_inputi_reads_token_witness :
    callFunc "inputi" [.strLit "enter: "] (initState ["42", "7"]) =
      .ok (.vint 42) { vars := [], output := ["enter: "], input := ["7"],
                       statementCount := 0, variableCount := 0, isRunning := false } ∧
    callFunc "inputi" [] (initState ["5"]) =
      .ok (.vint 5) { vars := [], output := [], input := [],
                      statementCount := 0, variableCount := 0, isRunning := false } := by
  constructor
  · exact (C6_inputi_reads_token (.strLit "enter: ") (initState ["42", "7"])).1
      (.vstr "enter: ") (initState ["42", "7"]) "42" ["7"] 42 rfl rfl rfl
  · exact (C6_inputi_reads_token (.intLit 0) (initState ["5"])).2 "5" [] 5 rfl rfl

/-- Claim C7 counterexample: the claim quotes the arity message as lowercase
"no inputi() function found that takes > 1 parameter", but at the concrete
call `inputi(1, 2)` the code aborts with the capitalised message
"No inputi() function found that takes > 1 parameter", so the claim's
quoted message is not the one raised. -/
theorem C7_message_counterexample :
    callFunc "inputi" [.intLit 1, .intLit 2] (initState []) ≠
      .err ⟨.nameError, "no inputi() function found that takes > 1 parameter"⟩
        (initState []) ∧
    callFunc "inputi" [.intLit 1, .intLit 2] (initState []) =
      .err ⟨.nameError, "No inputi() function found that takes > 1 parameter"⟩
        (initState []) := by
  constructor
  · decide
  · decide

/-- Claim C7 (amended): the set of callable built-in names is closed: calling
`inputi` with two or more arguments aborts with NameError
"No inputi() function found that takes > 1 parameter" (capital "No"), and
calling any name other than `print` or `inputi` aborts with the NameError
saying the function has not been defined, whatever its arguments. -/
theorem C7_closed_builtin_set (fname : String) (args : List Expr) (st : InterpState) :
    (args.length ≥ 2 →
      callFunc "inputi" args st =
        .err ⟨.nameError, "No inputi() function found that takes > 1 parameter"⟩ st) ∧
    (fname ≠ "print" → fname ≠ "inputi" →
      callFunc fname args st =
        .err ⟨.nameError, "Function " ++ fname ++ " has not been defined"⟩ st) := by
  constructor
  · intro h
    exact callFunc_inputi_arity args st (by omega)
  · exact callFunc_other fname args st

/-- Witness for claim C7 (amended): a two-argument `inputi` call and a call to
the undefined name `foo`. -/
theorem C7_closed_builtin_set_witness :
    callFunc "inputi" [.intLit 1, .intLit 2] (initState []) =
      .err ⟨.nameError, "No inputi() function found that takes > 1 parameter"⟩
        (initState []) ∧
    callFunc "foo" [.intLit 1] (initState []) =
      .err ⟨.nameError, "Function foo has not been defined"⟩ (initState []) := by
  constructor
  · exact (C7_closed_builtin_set "foo" [.intLit 1, .intLit 2] (initState [])).1
      (by decide)
  · exact (C7_closed_builtin_set "foo" [.intLit 1] (initState [])).2
      (by decide) (by decide)

/-- Claim C8: a successfully executed statement writes at most its own target
variable: every variable other than the one it declares or assigns keeps
its binding unchanged, and every variable declared before stays declared
(the table never shrinks). -/
theorem C8_env_frame (s : Stmt) (st st' : InterpState) :
    execStmt s st = .ok () st' →
    (∀ v, stmtTarget s ≠ some v → lookupVar st'.vars v = lookupVar st.vars v) ∧
    (∀ v, (lookupVar st.vars v).isSome = true → (lookupVar st'.vars v).isSome = true) := by
  intro h
  cases s with
  | varDecl name =>
    unfold execStmt defVar at h
    dsimp only at h
    split at h
    · cases h
    · injection h with h1 h2
      subst h2
      constructor
      · intro v hv
        have hnv : ¬(name = v) := fun hh => hv (congrArg some hh)
        dsimp only
        rw [lookupVar_append]
        have hone : lookupVar [(name, Value.vnull)] v = none := by
          simp [lookupVar, hnv]
        rw [hone]
        cases lookupVar st.vars v <;> rfl
      · intro v hs
        dsimp only
        rw [lookupVar_append]
        cases hc : lookupVar st.vars v with
        | none => rw [hc] at hs; simp at hs
        | some w => rfl
  | assign var expression =>
    unfold execStmt assignVar at h
    dsimp only at h
    split at h
    · cases h
    · split at h
      · cases h
      · rename_i heval
        injection h with h1 h2
        subst h2
        rename_i v1 st1
        have hv1 := (eval_frame expression
          { st with statementCount := st.statementCount + 1 }).1
        rw [heval] at hv1
        have hvars : st1.vars = st.vars := hv1
        constructor
        · intro v hv
          have hvv : v ≠ var := fun hh => hv (congrArg some hh.symm)
          dsimp only
          rw [lookupVar_update_other st1.vars v1 hvv, hvars]
        · intro v hs
          dsimp only
          by_cases hvv : v = var
          · subst hvv
            rw [lookupVar_update_self, hvars]
            cases hc : lookupVar st.vars v with
            | none => rw [hc] at hs; simp at hs
            | some u => rfl
          · rw [lookupVar_update_other st1.vars v1 hvv, hvars]
            exact hs
  | exprStmt e =>
    unfold execStmt at h
    dsimp only at h
    split at h
    · cases h
    · rename_i heval
      injection h with h1 h2
      subst h2
      rename_i v1 st1
      have hv1 := (eval_frame e { st with statementCount := st.statementCount + 1 }).1
      rw [heval] at hv1
      have hvars : st1.vars = st.vars := hv1
      exact ⟨fun v _ => by rw [hvars], fun v hs => by rw [hvars]; exact hs⟩

/-- Witness for claim C8: declaring `x` in a state where `y` is bound leaves the
binding of `y` unchanged and still present. -/
theorem C8_env_frame_witness :
    lookupVar [("y", Value.vint 7), ("x", Value.vnull)] "y" =
      lookupVar [("y", Value.vint 7)] "y" ∧
    (lookupVar [("y", Value.vint 7), ("x", Value.vnull)] "y").isSome = true := by
  have h := C8_env_frame (.varDecl "x")
    { vars := [("y", .vint 7)], output := [], input := [],
      statementCount := 0, variableCount := 0, isRunning := false }
    { vars := [("y", .vint 7), ("x", .vnull)], output := [], input := [],
      statementCount := 1, variableCount := 1, isRunning := false }
    rfl
  exact ⟨h.1 "y" (by decide), h.2 "y" rfl⟩

end Interp
